import Mathlib

/-!
Shallow embedding of the model-artifact discovery logic of
`OpenCVLauncher.automatic_model_search`
(src/tools/accuracy_checker/openvino/tools/accuracy_checker/launcher/opencv_launcher.py,
lines 194-265), together with proofs about it.

File-system modelling: a directory is its listing, an ordered `List String`
of file names (the order is the order in which `Path.glob` yields entries).
`Path.glob '*.ext'` matches exactly the names that end in `.ext` (fnmatch
`*` also matches the empty string), and `Path.glob '{name}.ext'` with a
wildcard-free `name` matches exactly the name `name ++ ".ext"`.
-/

/-- Python `Path.suffix`: the substring from the last dot on, provided that
dot is neither the first nor the last character of the name; otherwise `""`.
(CPython: `i = name.rfind('.'); return name[i:] if 0 < i < len(name)-1 else ''`.) -/
def suffixOf (s : String) : String :=
  let cs := s.data
  let n := cs.length
  match cs.reverse.findIdx? (· == '.') with
  | Option.none => ""
  | Option.some j =>
    let i := n - 1 - j
    if 0 < i ∧ i < n - 1 then ⟨cs.drop i⟩ else ""

/-- `Path.glob ('*' ++ ext)`: the files of the listing whose name ends in `ext`,
in listing order. -/
def glob_star_ext (files : List String) (ext : String) : List String :=
  files.filter (fun f => decide (ext.data <:+ f.data))

/-- `Path.glob nm` for a wildcard-free name `nm`: the files of the listing
named exactly `nm`. -/
def glob_name (files : List String) (nm : String) : List String :=
  files.filter (fun f => f == nm)

/-- `get_xml(model_dir)` (lines 195-199): glob `{model_name}.xml`, and if that
finds nothing, glob `*.xml`. -/
def get_xml (model_name : String) (files : List String) : List String :=
  let models_list := glob_name files (model_name ++ ".xml")
  if models_list.isEmpty then glob_star_ext files ".xml" else models_list

/-- `get_blob(model_dir)` (lines 201-205). -/
def get_blob (model_name : String) (files : List String) : List String :=
  let blobs_list := glob_name files (model_name ++ ".blob")
  if blobs_list.isEmpty then glob_star_ext files ".blob" else blobs_list

/-- `get_onnx(model_dir)` (lines 207-211). -/
def get_onnx (model_name : String) (files : List String) : List String :=
  let onnx_list := glob_name files (model_name ++ ".onnx")
  if onnx_list.isEmpty then glob_star_ext files ".onnx" else onnx_list

/-- `get_caffe(model_dir)` (lines 213-217). -/
def get_caffe (model_name : String) (files : List String) : List String :=
  let caffe_list := glob_name files (model_name ++ ".caffemodel")
  if caffe_list.isEmpty then glob_star_ext files ".caffemodel" else caffe_list

/-- The `weights` configuration value: absent (`None`), a path to a directory
(given by its listing), or an explicit file path (not a directory). -/
inductive WeightsArg where
  | noneW : WeightsArg
  | dirW (files : List String) : WeightsArg
  | fileW (name : String) : WeightsArg
deriving DecidableEq, Repr

/-- The inputs `automatic_model_search` reads: the `model` config path (a file
or a directory), the logical `_model_name`, the `_model_is_blob` flag and the
`weights` config value.  `modelDirFiles` is the listing of the model directory
when `modelIsDir = true`, and the listing of the model file's parent directory
when `modelIsDir = false` (that listing is `model.parent`, the default weights
directory).  `parentFiles` is the listing of that directory's own parent; the
code never reads it. -/
structure Request where
  model_name : String
  modelIsDir : Bool
  modelFile : String
  modelDirFiles : List String
  parentFiles : List String
  modelIsBlob : Option Bool
  weights : WeightsArg
deriving DecidableEq, Repr

/-- The distinct terminal outcomes of `automatic_model_search`: the four
`ConfigError` raises, plus the two uncaught Python runtime errors the weights
branch can produce. -/
inductive ResolveError where
  /-- line 225: `'Models with following suffixes are allowed: ...'`. -/
  | unsupportedModelSuffix : ResolveError
  /-- line 239: `'suitable model is not found'`. -/
  | modelNotFound : ResolveError
  /-- line 241: `'More than one model matched, please specify explicitly'`. -/
  | ambiguousModel : ResolveError
  /-- line 262: `'Weights with following suffixes are allowed: ...'`. -/
  | unsupportedWeightsSuffix : ResolveError
  /-- line 259: `weights_list[0]` on an empty `weights_list` (IndexError). -/
  | indexErrorWeights : ResolveError
  /-- line 259: `weights_list` referenced before assignment (UnboundLocalError). -/
  | unboundLocalWeights : ResolveError
deriving DecidableEq, Repr

/-- The pair `automatic_model_search` returns. -/
structure ResolveResult where
  model_file : String
  weights_file : Option String
deriving DecidableEq, Repr

/-- The spec's `is_precompiled` flag of a result: the resolved model file is a
`.blob` (the code computes `model.suffix == '.blob'`). -/
def is_precompiled (r : ResolveResult) : Bool :=
  suffixOf r.model_file == ".blob"

/-- The `model_list` computed by the directory branch of `get_model`
(lines 228-237): with `_model_is_blob` truthy only `get_blob`; otherwise
`get_xml`, then `get_blob` (only when the flag is `None`), then `get_onnx`,
then `get_caffe`, each step taken only when the previous found nothing. -/
def model_candidates (req : Request) : List String :=
  if req.modelIsBlob = Option.some true then
    get_blob req.model_name req.modelDirFiles
  else
    let l := get_xml req.model_name req.modelDirFiles
    let l := if l.isEmpty ∧ req.modelIsBlob = Option.none then
      get_blob req.model_name req.modelDirFiles else l
    let l := if l.isEmpty then get_onnx req.model_name req.modelDirFiles else l
    if l.isEmpty then get_caffe req.model_name req.modelDirFiles else l

/-- `get_model()` (lines 219-244): for a non-directory path the suffix must be
one of `.blob`, `.onnx`, `.xml`; for a directory, `model_candidates` must have
exactly one element.  Returns the model together with
`model.suffix == '.blob'`. -/
def get_model (req : Request) : Except ResolveError (String × Bool) :=
  if req.modelIsDir = false then
    if suffixOf req.modelFile ∈ ([".blob", ".onnx", ".xml"] : List String) then
      Except.ok (req.modelFile, suffixOf req.modelFile == ".blob")
    else
      Except.error ResolveError.unsupportedModelSuffix
  else
    match model_candidates req with
    | [] => Except.error ResolveError.modelNotFound
    | [m] => Except.ok (m, suffixOf m == ".blob")
    | _ => Except.error ResolveError.ambiguousModel

/-- The weights glob of lines 252-255: `*.bin` in the weights directory, and
if that finds nothing and the model is a `.caffemodel`, `*.prototxt`. -/
def weights_glob (files : List String) (msuffix : String) : List String :=
  let weights_list := glob_star_ext files ".bin"
  if weights_list.isEmpty then
    if msuffix = ".caffemodel" then glob_star_ext files ".prototxt"
    else weights_list
  else weights_list

/-- Lines 249-264, the weights handling after a non-blob model was found.
The local `weights_list` is only assigned inside the
`(weights is None or weights.is_dir()) and model.suffix != '.onnx'` branch, yet
line 259 re-reads `weights_list[0]` whenever `weights` ended up non-`None`:
with an explicit weights file, or with a weights directory and an `.onnx`
model, that raises UnboundLocalError; with a weights directory and an empty
glob, `weights_list` is `[]` and `weights_list[0]` raises IndexError.  When
`weights` is `None` the directory used is `model.parent`
(= `req.modelDirFiles`). -/
def resolve_weights (model : String) (req : Request) :
    Except ResolveError (Option String) :=
  match req.weights with
  | WeightsArg.noneW =>
    if suffixOf model ≠ ".onnx" then
      match weights_glob req.modelDirFiles (suffixOf model) with
      | [] => Except.ok Option.none
      | w :: _ =>
        if suffixOf w ∈ ([".bin", ".prototxt"] : List String) then
          Except.ok (Option.some w)
        else Except.error ResolveError.unsupportedWeightsSuffix
    else Except.ok Option.none
  | WeightsArg.dirW wfiles =>
    if suffixOf model ≠ ".onnx" then
      match weights_glob wfiles (suffixOf model) with
      | [] => Except.error ResolveError.indexErrorWeights
      | w :: _ =>
        if suffixOf w ∈ ([".bin", ".prototxt"] : List String) then
          Except.ok (Option.some w)
        else Except.error ResolveError.unsupportedWeightsSuffix
    else Except.error ResolveError.unboundLocalWeights
  | WeightsArg.fileW _ => Except.error ResolveError.unboundLocalWeights

/-- `automatic_model_search()` (lines 194-265): find the model; a `.blob`
model is returned with no weights (lines 247-248); otherwise the weights
handling of lines 249-264 runs. -/
def automatic_model_search (req : Request) :
    Except ResolveError ResolveResult :=
  match get_model req with
  | Except.error e => Except.error e
  | Except.ok (model, is_blob) =>
    if is_blob then Except.ok ⟨model, Option.none⟩
    else
      match resolve_weights model req with
      | Except.error e => Except.error e
      | Except.ok w => Except.ok ⟨model, w⟩

/-- Modelled from the spec: the priority chain "stop at the first format for
which at least one candidate file is found", as a fold over per-format
candidate lists.  Used to compare the code's search order with the spec's. -/
def firstNonEmpty : List (List String) → List String
  | [] => []
  | l :: ls => if l.isEmpty then firstNonEmpty ls else l

/-- Request used for the C9 witness: a `.blob` model file. -/
def req_c9 : Request :=
  ⟨"m", false, "m.blob", [], [], Option.none, WeightsArg.noneW⟩

/-- Request used for the C8 witness: a directory holding both an `.xml` and a
`.blob`, with the blob flag set. -/
def req_c8 : Request :=
  ⟨"m", true, "", ["a.xml", "b.blob"], [], Option.some true, WeightsArg.noneW⟩

/-- Request refuting C3's claimed priority order: the directory holds both a
blob and an IR file, and the IR file wins. -/
def req_c3 : Request :=
  ⟨"m", true, "", ["a.blob", "b.xml"], [], Option.none, WeightsArg.noneW⟩

/-- Request for the C3 witness: a directory whose only candidate is ONNX. -/
def req_c3w : Request :=
  ⟨"m", true, "", ["a.onnx"], [], Option.none, WeightsArg.noneW⟩

/-- Request refuting C1: the model resolves uniquely, but two `.bin` files
match the companion-weights glob. -/
def req_c1 : Request :=
  ⟨"model", true, "", ["model.xml", "w1.bin", "w2.bin"], [],
   Option.none, WeightsArg.noneW⟩

/-- Request for the first half of the C1 witness: two `.xml` candidates and
no exact-name match. -/
def req_c1amb : Request :=
  ⟨"m", true, "", ["a.xml", "b.xml"], [], Option.none, WeightsArg.noneW⟩

/-- Request refuting C2: the same-stem companion `model.bin` exists, but an
earlier `*.bin` glob match is picked instead. -/
def req_c2 : Request :=
  ⟨"model", true, "", ["model.xml", "other.bin", "model.bin"], [],
   Option.none, WeightsArg.noneW⟩

/-- Request refuting C4's parent-directory fallback: the model directory is
empty while its parent contains `a.xml`. -/
def req_c4 : Request :=
  ⟨"m", true, "", [], ["a.xml"], Option.none, WeightsArg.noneW⟩

/-- The failing C5 input: a resolved `.xml` model with an explicit
`.caffemodel` weights file. -/
def req_c5 : Request :=
  ⟨"model", false, "model.xml", [], [], Option.none,
   WeightsArg.fileW "w.caffemodel"⟩

/-- Request showing the C6 silent-success branch: an `.xml` model and no
weights anywhere. -/
def req_c6 : Request :=
  ⟨"model", true, "", ["model.xml"], [], Option.none, WeightsArg.noneW⟩

/-- Request for the IndexError half of the C6 witness: a `.caffemodel` model
with an empty weights directory. -/
def req_c6b : Request :=
  ⟨"m", true, "", ["m.caffemodel"], [], Option.none, WeightsArg.dirW []⟩

/-- Request refuting C7: a `.pdmodel` file, one of the claim's accepted
primary extensions. -/
def req_c7 : Request :=
  ⟨"m", false, "m.pdmodel", [], [], Option.none, WeightsArg.noneW⟩

/-- Request for the accepted half of the C7 witness: an `.xml` model file. -/
def req_c7ok : Request :=
  ⟨"m", false, "m.xml", [], [], Option.none, WeightsArg.noneW⟩

/-- The `is_blob` flag returned by `get_model` always equals
`model.suffix == '.blob'` (lines 227 and 244 compute it exactly so). -/
theorem get_model_is_blob_eq (req : Request) (m : String) (b : Bool)
    (h : get_model req = Except.ok (m, b)) : b = (suffixOf m == ".blob") := by
  unfold get_model at h
  split at h
  · split at h
    · simp only [Except.ok.injEq, Prod.mk.injEq] at h
      rw [← h.1, ← h.2]
    · exact Except.noConfusion h
  · split at h
    · exact Except.noConfusion h
    · simp only [Except.ok.injEq, Prod.mk.injEq] at h
      rw [← h.1, ← h.2]
    · exact Except.noConfusion h

/-- C9: a successful resolution whose model file is a precompiled `.blob`
carries no weights file, whatever the `weights` configuration was
(lines 247-248 return `model, None` before the weights handling runs). -/
theorem c9_precompiled_implies_no_weights (req : Request) (r : ResolveResult)
    (h : automatic_model_search req = Except.ok r)
    (hp : is_precompiled r = true) : r.weights_file = Option.none := by
  unfold automatic_model_search at h
  cases hg : get_model req with
  | error e => rw [hg] at h; exact Except.noConfusion h
  | ok p =>
    obtain ⟨m, b⟩ := p
    rw [hg] at h
    dsimp only at h
    have hb := get_model_is_blob_eq req m b hg
    by_cases hbt : b = true
    · rw [if_pos hbt] at h
      simp only [Except.ok.injEq] at h
      rw [← h]
    · rw [if_neg hbt] at h
      cases hw : resolve_weights m req with
      | error e => rw [hw] at h; exact Except.noConfusion h
      | ok w =>
        rw [hw] at h
        simp only [Except.ok.injEq] at h
        subst h
        exact absurd (hb ▸ hp) hbt

/-- C9 witness: the invariant applied at a concrete precompiled request. -/
theorem c9_witness :
    automatic_model_search req_c9 = Except.ok ⟨"m.blob", Option.none⟩
    ∧ (ResolveResult.mk "m.blob" Option.none).weights_file = Option.none :=
  ⟨rfl, c9_precompiled_implies_no_weights req_c9 ⟨"m.blob", Option.none⟩ rfl rfl⟩

/-- C8: with `_model_is_blob` set (the one format the configuration can pin),
the directory search consults only `get_blob`: every candidate is either the
exact `{model_name}.blob` or a `*.blob` glob match, regardless of `.xml`,
`.onnx` or `.caffemodel` files also present (line 228-229). -/
theorem c8_blob_flag_restricts_search (req : Request)
    (hflag : req.modelIsBlob = Option.some true) :
    model_candidates req = get_blob req.model_name req.modelDirFiles
    ∧ ∀ f ∈ model_candidates req,
        f = req.model_name ++ ".blob" ∨ (".blob").data <:+ f.data := by
  have h1 : model_candidates req = get_blob req.model_name req.modelDirFiles := by
    unfold model_candidates
    rw [if_pos hflag]
  refine ⟨h1, ?_⟩
  intro f hf
  rw [h1] at hf
  simp only [get_blob] at hf
  by_cases he : (glob_name req.modelDirFiles (req.model_name ++ ".blob")).isEmpty
  · rw [if_pos he] at hf
    right
    simp only [glob_star_ext] at hf
    exact of_decide_eq_true (List.mem_filter.mp hf).2
  · rw [if_neg he] at hf
    left
    simp only [glob_name] at hf
    exact eq_of_beq (List.mem_filter.mp hf).2

/-- C8 witness: with the flag set, the candidates in a mixed directory are
exactly the blob candidates. -/
theorem c8_witness :
    model_candidates req_c8 = get_blob "m" ["a.xml", "b.blob"] :=
  (c8_blob_flag_restricts_search req_c8 rfl).1

/-- C10: with `_model_is_blob` explicitly `False`, `.blob` files are never
considered: the candidate chain is `get_xml`, `get_onnx`, `get_caffe` only
(the `model_is_blob is None` guard on line 232 skips `get_blob`), so a
directory whose only candidates are blobs fails with the not-found error,
while the same directory resolves when the flag is unset. -/
theorem c10_blob_flag_false_skips_blob (name : String) (files pf : List String)
    (wa : WeightsArg) (b : String) :
    (model_candidates ⟨name, true, "", files, pf, Option.some false, wa⟩ =
      firstNonEmpty [get_xml name files, get_onnx name files, get_caffe name files])
    ∧ (get_xml name files = [] → get_onnx name files = [] →
        get_caffe name files = [] → get_blob name files ≠ [] →
        automatic_model_search ⟨name, true, "", files, pf, Option.some false, wa⟩ =
          Except.error ResolveError.modelNotFound)
    ∧ (get_xml name files = [] → get_blob name files = [b] →
        suffixOf b = ".blob" →
        automatic_model_search ⟨name, true, "", files, pf, Option.none, wa⟩ =
          Except.ok ⟨b, Option.none⟩) := by
  refine ⟨?_, ?_, ?_⟩
  · simp only [model_candidates, firstNonEmpty]
    by_cases h1 : (get_xml name files).isEmpty <;>
      by_cases h2 : (get_onnx name files).isEmpty <;>
        by_cases h3 : (get_caffe name files).isEmpty <;>
          simp_all [List.isEmpty_iff]
  · intro hx ho hc _
    have hcand :
        model_candidates ⟨name, true, "", files, pf, Option.some false, wa⟩ = [] := by
      simp [model_candidates, hx, ho, hc]
    simp [automatic_model_search, get_model, hcand]
  · intro hx hb hsuf
    have hcand :
        model_candidates ⟨name, true, "", files, pf, Option.none, wa⟩ = [b] := by
      simp [model_candidates, hx, hb]
    simp [automatic_model_search, get_model, hcand, hsuf]

/-- C10 witness: a directory holding only `a.blob` fails with the flag at
`False` and resolves with the flag unset. -/
theorem c10_witness :
    automatic_model_search
        ⟨"m", true, "", ["a.blob"], [], Option.some false, WeightsArg.noneW⟩ =
      Except.error ResolveError.modelNotFound
    ∧ automatic_model_search
        ⟨"m", true, "", ["a.blob"], [], Option.none, WeightsArg.noneW⟩ =
      Except.ok ⟨"a.blob", Option.none⟩ :=
  ⟨(c10_blob_flag_false_skips_blob "m" ["a.blob"] [] WeightsArg.noneW "a.blob").2.1
      (by decide) (by decide) (by decide) (by decide),
   (c10_blob_flag_false_skips_blob "m" ["a.blob"] [] WeightsArg.noneW "a.blob").2.2
      (by decide) (by decide) (by decide)⟩

/-- C3 counterexample: with format undeclared, a directory holding `a.blob`
and `b.xml` resolves to `b.xml` — the claimed precompiled-blob-first priority
would have picked `a.blob`, which is a candidate of its format here. -/
theorem c3_counterexample :
    automatic_model_search req_c3 = Except.ok ⟨"b.xml", Option.none⟩
    ∧ get_blob req_c3.model_name req_c3.modelDirFiles = ["a.blob"] :=
  ⟨rfl, rfl⟩

/-- C3 amended: with the blob flag unset, the candidate chain tries IR
(`.xml`) first, then precompiled blob (`.blob`), then ONNX (`.onnx`), then
Caffe (`.caffemodel`) — paddle and tf-frozen are never searched — stopping at
the first format with at least one candidate. -/
theorem c3_priority_order (req : Request)
    (hflag : req.modelIsBlob = Option.none) :
    model_candidates req = firstNonEmpty
      [get_xml req.model_name req.modelDirFiles,
       get_blob req.model_name req.modelDirFiles,
       get_onnx req.model_name req.modelDirFiles,
       get_caffe req.model_name req.modelDirFiles] := by
  simp only [model_candidates, firstNonEmpty, hflag]
  by_cases h1 : (get_xml req.model_name req.modelDirFiles).isEmpty <;>
    by_cases h2 : (get_blob req.model_name req.modelDirFiles).isEmpty <;>
      by_cases h3 : (get_onnx req.model_name req.modelDirFiles).isEmpty <;>
        by_cases h4 : (get_caffe req.model_name req.modelDirFiles).isEmpty <;>
          simp_all [List.isEmpty_iff]

/-- C3 witness: the priority-chain equation applied at a concrete request. -/
theorem c3_witness :
    model_candidates req_c3w = firstNonEmpty
      [get_xml "m" ["a.onnx"], get_blob "m" ["a.onnx"],
       get_onnx "m" ["a.onnx"], get_caffe "m" ["a.onnx"]] :=
  c3_priority_order req_c3w rfl

/-- The weights handling of lines 249-264 can fail in three ways
(unsupported suffix, IndexError, UnboundLocalError) but never with the
ambiguity error: multiple glob matches are not rejected there. -/
theorem resolve_weights_no_ambiguity (model : String) (req : Request) :
    resolve_weights model req ≠ Except.error ResolveError.ambiguousModel := by
  intro h
  unfold resolve_weights at h
  cases hw : req.weights <;> rw [hw] at h <;> dsimp only at h
  case fileW => exact Except.noConfusion h (fun he => ResolveError.noConfusion he)
  case noneW =>
    split at h
    · split at h
      · exact Except.noConfusion h
      · split at h
        · exact Except.noConfusion h
        · exact Except.noConfusion h (fun he => ResolveError.noConfusion he)
    · exact Except.noConfusion h
  case dirW =>
    split at h
    · split at h
      · exact Except.noConfusion h (fun he => ResolveError.noConfusion he)
      · split at h
        · exact Except.noConfusion h
        · exact Except.noConfusion h (fun he => ResolveError.noConfusion he)
    · exact Except.noConfusion h (fun he => ResolveError.noConfusion he)

/-- C1 counterexample: two files match the weights glob, yet resolution
succeeds, silently picking the first, instead of failing with the ambiguity
error the claim requires. -/
theorem c1_counterexample :
    weights_glob req_c1.modelDirFiles (suffixOf "model.xml") =
      ["w1.bin", "w2.bin"]
    ∧ automatic_model_search req_c1 =
        Except.ok ⟨"model.xml", Option.some "w1.bin"⟩ :=
  ⟨rfl, rfl⟩

/-- C1 amended: ambiguity is fatal only at the model search step — more than
one model candidate raises the 'More than one model matched' error — while
the companion-weights glob never raises it: once a model is found, the
ambiguity error cannot occur. -/
theorem c1_ambiguity_only_for_models :
    (∀ req : Request, req.modelIsDir = true →
      2 ≤ (model_candidates req).length →
      automatic_model_search req = Except.error ResolveError.ambiguousModel)
    ∧ (∀ (req : Request) (m : String) (b : Bool),
        get_model req = Except.ok (m, b) →
        automatic_model_search req ≠ Except.error ResolveError.ambiguousModel) := by
  constructor
  · intro req hd h2
    cases hc : model_candidates req with
    | nil => rw [hc] at h2; simp at h2
    | cons a t =>
      cases t with
      | nil => rw [hc] at h2; simp at h2
      | cons a2 t2 => simp [automatic_model_search, get_model, hd, hc]
  · intro req m b hg h
    unfold automatic_model_search at h
    rw [hg] at h
    dsimp only at h
    by_cases hbt : b = true
    · rw [if_pos hbt] at h
      exact Except.noConfusion h
    · rw [if_neg hbt] at h
      cases hw : resolve_weights m req with
      | error e =>
        rw [hw] at h
        simp only [Except.error.injEq] at h
        exact resolve_weights_no_ambiguity m req (h ▸ hw)
      | ok w => rw [hw] at h; exact Except.noConfusion h

/-- C1 witness: the amended statement applied at concrete requests — an
ambiguous model directory errors, and a found model never yields the
ambiguity error. -/
theorem c1_witness :
    automatic_model_search req_c1amb = Except.error ResolveError.ambiguousModel
    ∧ automatic_model_search req_c1 ≠ Except.error ResolveError.ambiguousModel :=
  ⟨c1_ambiguity_only_for_models.1 req_c1amb rfl (by decide),
   c1_ambiguity_only_for_models.2 req_c1 "model.xml" false rfl⟩

/-- C2 counterexample: `model.bin` (the claimed derived same-stem companion)
is present, yet resolution returns `other.bin`, the first `*.bin` glob match
in listing order. -/
theorem c2_counterexample :
    "model.bin" ∈ req_c2.modelDirFiles
    ∧ automatic_model_search req_c2 =
        Except.ok ⟨"model.xml", Option.some "other.bin"⟩ :=
  ⟨by decide, rfl⟩

/-- C2 amended: no same-stem derivation happens; whenever `weights` is `None`
and the resolved model is neither blob nor ONNX, the weights file is the head
of the `*.bin` glob (with `*.prototxt` fallback only for `.caffemodel`
models) over the model's directory, in listing order, whether or not a
same-stem companion exists. -/
theorem c2_weights_head_of_glob (req : Request) (m w : String)
    (rest : List String)
    (hm : get_model req = Except.ok (m, false))
    (hw : req.weights = WeightsArg.noneW)
    (honnx : suffixOf m ≠ ".onnx")
    (hglob : weights_glob req.modelDirFiles (suffixOf m) = w :: rest)
    (hsuf : suffixOf w ∈ ([".bin", ".prototxt"] : List String)) :
    automatic_model_search req = Except.ok ⟨m, Option.some w⟩ := by
  unfold automatic_model_search
  rw [hm]
  dsimp only
  rw [if_neg (by simp)]
  unfold resolve_weights
  rw [hw]
  dsimp only
  rw [if_pos honnx, hglob]
  dsimp only
  rw [if_pos hsuf]

/-- C2 witness: the head-of-glob rule applied at the counterexample request,
where the same-stem companion exists but is not chosen. -/
theorem c2_witness :
    automatic_model_search req_c2 =
      Except.ok ⟨"model.xml", Option.some "other.bin"⟩ :=
  c2_weights_head_of_glob req_c2 "model.xml" "other.bin" ["model.bin"]
    rfl rfl (by decide) rfl (by decide)

/-- C4 counterexample: with an empty model directory, resolution fails with
the not-found error even though globbing `*.xml` in the parent directory
would have found `a.xml` — there is no widening-to-parent step. -/
theorem c4_counterexample :
    automatic_model_search req_c4 = Except.error ResolveError.modelNotFound
    ∧ get_xml req_c4.model_name req_c4.parentFiles = ["a.xml"] :=
  ⟨rfl, rfl⟩

/-- C4 amended: within a format the precedence is the exact
`{model_name}.{ext}` match first, else any `*.{ext}` in the directory, and
nothing else — an empty directory fails however the parent is populated —
while the claimed `net.xml`/`net.bin`/`other.xml` scenario does resolve to
`net.xml` with `net.bin`. -/
theorem c4_exact_then_dir_glob_only :
    (∀ (nm : String) (files : List String), (nm ++ ".xml") ∈ files →
      get_xml nm files = glob_name files (nm ++ ".xml"))
    ∧ (∀ pf : List String,
        automatic_model_search
            ⟨"m", true, "", [], pf, Option.none, WeightsArg.noneW⟩ =
          Except.error ResolveError.modelNotFound)
    ∧ (∀ pf : List String,
        automatic_model_search
            ⟨"net", true, "", ["net.xml", "net.bin", "other.xml"], pf,
             Option.none, WeightsArg.noneW⟩ =
          Except.ok ⟨"net.xml", Option.some "net.bin"⟩) := by
  refine ⟨?_, fun pf => rfl, fun pf => rfl⟩
  intro nm files hmem
  have hne : glob_name files (nm ++ ".xml") ≠ [] := by
    intro hnil
    have hin : (nm ++ ".xml") ∈ List.filter (fun f => f == nm ++ ".xml") files :=
      List.mem_filter.mpr ⟨hmem, by simp⟩
    rw [show List.filter (fun f => f == nm ++ ".xml") files =
          glob_name files (nm ++ ".xml") from rfl, hnil] at hin
    exact absurd hin (List.not_mem_nil _)
  simp [get_xml, List.isEmpty_iff, hne]

/-- C4 witness: the amended statement at concrete inputs — exact-match
priority, the empty-directory failure, and the `net.xml` scenario. -/
theorem c4_witness :
    get_xml "net" ["net.xml", "other.xml"] =
      glob_name ["net.xml", "other.xml"] ("net" ++ ".xml")
    ∧ automatic_model_search
        ⟨"m", true, "", [], [], Option.none, WeightsArg.noneW⟩ =
      Except.error ResolveError.modelNotFound
    ∧ automatic_model_search
        ⟨"net", true, "", ["net.xml", "net.bin", "other.xml"], [],
         Option.none, WeightsArg.noneW⟩ =
      Except.ok ⟨"net.xml", Option.some "net.bin"⟩ :=
  ⟨c4_exact_then_dir_glob_only.1 "net" ["net.xml", "other.xml"] (by decide),
   c4_exact_then_dir_glob_only.2.1 [],
   c4_exact_then_dir_glob_only.2.2 []⟩

/-- C5: with an explicit weights file, line 259 re-reads `weights_list[0]`
although `weights_list` was never assigned (the assignment at lines 252-255
is guarded by `weights is None or weights.is_dir()`), so the call dies with
UnboundLocalError before the suffix validation of lines 260-262 can run. -/
theorem c5_explicit_weights_crash :
    automatic_model_search req_c5 =
      Except.error ResolveError.unboundLocalWeights :=
  rfl

/-- C6 counterexample: no file matches the weights glob, yet resolution
returns successfully with no weights file instead of failing with a
'suitable weights not detected' error. -/
theorem c6_counterexample :
    weights_glob req_c6.modelDirFiles ".xml" = []
    ∧ automatic_model_search req_c6 =
        Except.ok ⟨"model.xml", Option.none⟩ :=
  ⟨rfl, rfl⟩

/-- C6 amended: when nothing matches the weights glob, no
'suitable weights not detected' error exists — with `weights` `None` the
resolution succeeds with no weights file, and with `weights` a directory it
dies with an uncaught IndexError at `weights_list[0]`. -/
theorem c6_missing_weights_not_an_error (req : Request) (m : String)
    (hm : get_model req = Except.ok (m, false))
    (honnx : suffixOf m ≠ ".onnx") :
    (req.weights = WeightsArg.noneW →
      weights_glob req.modelDirFiles (suffixOf m) = [] →
      automatic_model_search req = Except.ok ⟨m, Option.none⟩)
    ∧ (∀ wfiles : List String, req.weights = WeightsArg.dirW wfiles →
        weights_glob wfiles (suffixOf m) = [] →
        automatic_model_search req =
          Except.error ResolveError.indexErrorWeights) := by
  constructor
  · intro hw hglob
    unfold automatic_model_search
    rw [hm]
    dsimp only
    rw [if_neg (by simp)]
    unfold resolve_weights
    rw [hw]
    dsimp only
    rw [if_pos honnx, hglob]
  · intro wfiles hw hglob
    unfold automatic_model_search
    rw [hm]
    dsimp only
    rw [if_neg (by simp)]
    unfold resolve_weights
    rw [hw]
    dsimp only
    rw [if_pos honnx, hglob]

/-- C6 witness: the amended statement at concrete requests — silent success
with `weights` `None`, IndexError with an empty weights directory. -/
theorem c6_witness :
    automatic_model_search req_c6 = Except.ok ⟨"model.xml", Option.none⟩
    ∧ automatic_model_search req_c6b =
        Except.error ResolveError.indexErrorWeights :=
  ⟨(c6_missing_weights_not_an_error req_c6 "model.xml" rfl (by decide)).1
      rfl rfl,
   (c6_missing_weights_not_an_error req_c6b "m.caffemodel" rfl (by decide)).2
      [] rfl rfl⟩

/-- C7 counterexample: a `.pdmodel` model file — accepted by the claim — is
rejected with the unsupported-suffix error (line 223 accepts only `.blob`,
`.onnx`, `.xml`). -/
theorem c7_counterexample :
    suffixOf req_c7.modelFile = ".pdmodel"
    ∧ automatic_model_search req_c7 =
        Except.error ResolveError.unsupportedModelSuffix :=
  ⟨rfl, rfl⟩

/-- C7 amended: for a file `model` path the accepted extensions are exactly
`.blob`, `.onnx`, `.xml` (`.pdmodel`, `.pb`, `.prototxt` are rejected with
the unsupported-suffix error); the format is inferred from the extension
(`is_blob = suffix == '.blob'`) and the blob flag is ignored in this
branch. -/
theorem c7_file_accepted_suffixes (req : Request)
    (hfile : req.modelIsDir = false) :
    (suffixOf req.modelFile ∉ ([".blob", ".onnx", ".xml"] : List String) →
      automatic_model_search req =
        Except.error ResolveError.unsupportedModelSuffix)
    ∧ (suffixOf req.modelFile ∈ ([".blob", ".onnx", ".xml"] : List String) →
      get_model req =
        Except.ok (req.modelFile, suffixOf req.modelFile == ".blob"))
    ∧ (∀ flag : Option Bool,
        get_model { req with modelIsBlob := flag } = get_model req) := by
  rcases req with ⟨mn, mid, mf, mdf, pf, mib, w⟩
  dsimp only at hfile ⊢
  subst hfile
  refine ⟨?_, ?_, ?_⟩
  · intro hn
    simp only [automatic_model_search, get_model]
    rw [if_pos trivial, if_neg hn]
  · intro hy
    simp only [get_model]
    rw [if_pos trivial, if_pos hy]
  · intro flag
    rfl

/-- C7 witness: the amended statement at concrete files — the `.pdmodel`
rejection, the `.xml` acceptance, and the blob-flag independence. -/
theorem c7_witness :
    automatic_model_search req_c7 =
      Except.error ResolveError.unsupportedModelSuffix
    ∧ get_model req_c7ok =
        Except.ok ("m.xml", suffixOf "m.xml" == ".blob")
    ∧ get_model { req_c7ok with modelIsBlob := Option.some true } =
        get_model req_c7ok :=
  ⟨(c7_file_accepted_suffixes req_c7 rfl).1 (by decide),
   (c7_file_accepted_suffixes req_c7ok rfl).2.1 (by decide),
   (c7_file_accepted_suffixes req_c7ok rfl).2.2 (Option.some true)⟩
